import Mathlib

/-!
# DNA_Strand

A shallow embedding of `class DNA_Strand` (`DNA_Strand.h`, `DNA_Strand.cpp`) and
theorems about what its member functions compute.

The object state is the three private data members.  A member function that
mutates the object is a function returning the new state; a member function that
mutates and returns a value returns the pair (new state, value).  `size_t` values
are natural numbers, `int` values are integers, and the one `size_t` to `int`
conversion in the source is made explicit by `sizeToInt`.  The member
`char *myDNA` is a pointer that may or may not point to an array; a call that
reads through it where it does not has undefined behaviour and yields no result
(`none`).

Every member function body in `DNA_Strand.cpp` consists of a local string named
`junk`, built from the parameters and never read again, followed (for non-void
functions) by a `return` of a constant or of a parameter.  The definitions below
follow those bodies statement by statement.
-/

set_option linter.unusedVariables false

/-- Default size of the dynamic array (`DEFAULT_DNA_SIZE`, DNA_Strand.h:14). -/
def DEFAULT_DNA_SIZE : Nat := 50

/-- A value of type `char *`: a pointer to an array holding `cells`, or a
pointer that must not be dereferenced (null, or never assigned). -/
inductive CharPtr where
  | invalid
  | array (cells : List Char)
deriving DecidableEq, Repr

/-- The characters a pointer gives access to: those of its array, none for a
pointer without one. -/
def CharPtr.cells (p : CharPtr) : List Char :=
  match p with
  | CharPtr.invalid => []
  | CharPtr.array cells => cells

/-- The read `p[i]`.  It has a value only when `p` points to an array with an
element at index `i`; otherwise the read is undefined behaviour (`none`). -/
def CharPtr.get? (p : CharPtr) (i : Nat) : Option Char :=
  match p with
  | CharPtr.invalid => none
  | CharPtr.array cells => cells.get? i

/-- The private data members of `class DNA_Strand` (DNA_Strand.h:24-32):
`maxDNA` is the size of the allocated array, `mySize` the number of array
elements in use, `myDNA` the pointer to the storage buffer. -/
structure DNA_Strand where
  maxDNA : Nat
  mySize : Nat
  myDNA : CharPtr
deriving DecidableEq, Repr

/-- The `std::to_string` of an unsigned value: its decimal digits. -/
def to_string (n : Nat) : String := Nat.repr n

/-- Arithmetic on `size_t` wraps at the 64-bit word size. -/
def wrapSize (n : Nat) : Nat := n % 2 ^ 64

/-- Conversion of a `size_t` to `int` (the `return pos;` of an `int` function):
the value is reduced to 32 bits and read in two's complement. -/
def sizeToInt (n : Nat) : Int :=
  if n % 2 ^ 32 < 2 ^ 31 then (n % 2 ^ 32 : Nat) else ((n % 2 ^ 32 : Nat) : Int) - 2 ^ 32

namespace DNA_Strand

/-! ## Constructors

No constructor body assigns a data member and there is no member initializer
list, so a constructed object keeps whatever the storage it is built in already
holds.  That indeterminate state is the parameter `uninit`.  In storage of static
duration, which is zero-initialized, it is `storageZeroed` (sizes 0, null
pointer); nowhere does a constructor make `myDNA` point to an array. -/

/-- The default constructor `DNA_Strand::DNA_Strand ()` (DNA_Strand.cpp:13-16):
empty body. -/
def mkDefault (uninit : DNA_Strand) : DNA_Strand := uninit

/-- The constructor `DNA_Strand::DNA_Strand (size_t size)` (DNA_Strand.cpp:21-25). -/
def mkSized (uninit : DNA_Strand) (size : Nat) : DNA_Strand :=
  let junk := to_string size
  uninit

/-- The constructor `DNA_Strand::DNA_Strand (const std::string & ipStr)`
(DNA_Strand.cpp:32-36). -/
def mkString (uninit : DNA_Strand) (ipStr : String) : DNA_Strand :=
  let junk := ipStr
  uninit

/-! ## Accessors -/

/-- The member `DNA_Strand::toString` (DNA_Strand.cpp:69-72). -/
def toString (s : DNA_Strand) : String := "junk"

/-- The member `DNA_Strand::size` (DNA_Strand.cpp:96-99). -/
def size (s : DNA_Strand) : Nat := 999999

/-- The member `DNA_Strand::maxSize` (DNA_Strand.cpp:104-107). -/
def maxSize (s : DNA_Strand) : Nat := 999999

/-- The copy constructor `DNA_Strand::DNA_Strand (const DNA_Strand & s)`
(DNA_Strand.cpp:40-44). -/
def mkCopy (uninit : DNA_Strand) (s : DNA_Strand) : DNA_Strand :=
  let junk := to_string s.maxSize
  uninit

/-- The assignment operator `DNA_Strand::operator=` (DNA_Strand.cpp:57-62):
returns `*this`, unmodified. -/
def assign (self rhs : DNA_Strand) : DNA_Strand :=
  let junk := to_string rhs.maxSize
  self

/-- The member `DNA_Strand::set` (DNA_Strand.cpp:79-82).  The body has no
`throw`, so the result is always `Except.ok`. -/
def set (s : DNA_Strand) (new_item : Char) (index : Nat) : Except String DNA_Strand :=
  let junk := to_string (wrapSize (index + new_item.toNat))
  Except.ok s

/-- The member `DNA_Strand::get` (DNA_Strand.cpp:88-92).  The body has no
`throw`, so the result is always `Except.ok`. -/
def get (s : DNA_Strand) (index : Nat) : Except String Char :=
  let junk := to_string index
  Except.ok '!'

/-- The member `DNA_Strand::isEqual` (DNA_Strand.cpp:114-118). -/
def isEqual (self s : DNA_Strand) : Bool :=
  let junk := to_string s.maxSize
  false

/-- The private helper `DNA_Strand::inRange` (DNA_Strand.cpp:262-266). -/
def inRange (s : DNA_Strand) (index : Nat) : Bool :=
  let junk := to_string index
  false

/-! ## Search -/

/-- The member `DNA_Strand::search(const std::string &)` (DNA_Strand.cpp:124-128). -/
def search (s : DNA_Strand) (target : String) : Int :=
  let junk := target
  (-1)

/-- The member `DNA_Strand::search(size_t, const std::string &)`
(DNA_Strand.cpp:134-138). -/
def searchPos (s : DNA_Strand) (pos : Nat) (target : String) : Int :=
  let junk := target ++ to_string pos
  (-1)

/-! ## Region deletion -/

/-- The member `DNA_Strand::cleave(const std::string &)` (DNA_Strand.cpp:147-150). -/
def cleave (s : DNA_Strand) (target : String) : DNA_Strand :=
  let junk := target
  s

/-- The member `DNA_Strand::cleave(size_t, const std::string &)`
(DNA_Strand.cpp:156-160).  The local `junk` reads `maxDNA + mySize` and
dereferences the pointer: `myDNA[0]` (cpp:158).  Where `myDNA` does not point to
an array with an element at index 0 the call is undefined behaviour and has no
result (`none`); otherwise the result is the pair (object after the call,
returned `int`). -/
def cleavePos (s : DNA_Strand) (pos : Nat) (target : String) : Option (DNA_Strand × Int) :=
  match s.myDNA.get? 0 with
  | none => none
  | some c =>
    let junk := (target ++ to_string pos ++ to_string (wrapSize (s.maxDNA + s.mySize))).push c
    some (s, -1)

/-- The member `DNA_Strand::cleaveAll` (DNA_Strand.cpp:170-173). -/
def cleaveAll (s : DNA_Strand) (target : String) : DNA_Strand :=
  let junk := target
  s

/-! ## Counting -/

/-- The member `DNA_Strand::countEnzyme(char)` (DNA_Strand.cpp:179-183). -/
def countEnzymeChar (s : DNA_Strand) (target : Char) : Nat :=
  let junk := to_string target.toNat
  999999

/-- The member `DNA_Strand::countEnzyme(const std::string &)`
(DNA_Strand.cpp:191-195). -/
def countEnzyme (s : DNA_Strand) (target : String) : Nat :=
  let junk := target
  999999

/-! ## Growth, append, splice -/

/-- The member `DNA_Strand::grow` (DNA_Strand.cpp:204-207). -/
def grow (s : DNA_Strand) (newSize : Nat) : DNA_Strand :=
  let junk := to_string newSize
  s

/-- The member `DNA_Strand::append(const std::string &)` (DNA_Strand.cpp:215-218). -/
def append (s : DNA_Strand) (rhs : String) : DNA_Strand :=
  let junk := rhs
  s

/-- The member `DNA_Strand::append(const DNA_Strand &)` (DNA_Strand.cpp:226-229). -/
def appendStrand (s rhs : DNA_Strand) : DNA_Strand :=
  let junk := to_string rhs.maxSize
  s

/-- The member `DNA_Strand::splice(const std::string &, const std::string &)`
(DNA_Strand.cpp:240-243). -/
def splice (s : DNA_Strand) (target insertSequence : String) : DNA_Strand :=
  let junk := target ++ insertSequence
  s

/-- The member `DNA_Strand::splice(size_t, const std::string &, const std::string &)`
(DNA_Strand.cpp:252-256): `return pos;` in a function returning `int`.  The pair
is (object after the call, returned `int`). -/
def splicePos (s : DNA_Strand) (pos : Nat) (target insertSequence : String) :
    DNA_Strand × Int :=
  let junk := target ++ insertSequence
  (s, sizeToInt pos)

/-! ## Vocabulary of the specification

The specification speaks of the strand's content and of occurrences of a target
in it.  These notions are not computed anywhere in the source; they are stated here over
the data members as the header documents them (`myDNA` partially filled, its
first `mySize` elements in use). -/

/-- The characters in use: the first `mySize` elements of the buffer. -/
def content (s : DNA_Strand) : List Char := s.myDNA.cells.take s.mySize

end DNA_Strand

/-- The non-empty target `t` occurs in `c` starting at index `i`:
`c[i .. i+|t|) = t`. -/
def occursAt (c t : List Char) (i : Nat) : Prop :=
  t ≠ [] ∧ (c.drop i).take t.length = t

instance occursAt.instDecidable (c t : List Char) (i : Nat) : Decidable (occursAt c t i) :=
  inferInstanceAs (Decidable (_ ∧ _))

/-- The lowest index `i ≥ pos` at which `t` occurs in `c`, if there is one. -/
def firstFrom (c t : List Char) (pos : Nat) : Option Nat :=
  (List.range c.length).find? (fun i => decide (pos ≤ i ∧ occursAt c t i))

/-- The index `i` is the lowest one at which `t` occurs in `c`. -/
def isLowestOcc (c t : List Char) (i : Nat) : Prop :=
  occursAt c t i ∧ ∀ j, j < i → ¬ occursAt c t j

instance isLowestOcc.instDecidable (c t : List Char) (i : Nat) :
    Decidable (isLowestOcc c t i) :=
  inferInstanceAs (Decidable (_ ∧ _))

/-- The marker end positions `(e1, e2)` found when searching from `pos`: `e1` is
the index just past the first occurrence of `t` at or after `pos`, `e2` the index
just past the first occurrence of `t` starting at or after `e1 + gap`.  With
`gap = 0` the second occurrence may start right at `e1`; with `gap = 1` it has to
start strictly after `e1`. -/
def markerEnds (gap : Nat) (c t : List Char) (pos : Nat) : Option (Nat × Nat) :=
  (firstFrom c t pos).bind fun i1 =>
    (firstFrom c t (i1 + t.length + gap)).map fun i2 => (i1 + t.length, i2 + t.length)

/-- The left-to-right non-overlapping scan from `pos`: each match at `i` counts
one and the scan resumes at `i + |t|`.  Each round of `fuel` looks for one match. -/
def countScan (fuel : Nat) (c t : List Char) (pos : Nat) : Nat :=
  match fuel with
  | 0 => 0
  | fuel + 1 =>
    match firstFrom c t pos with
    | none => 0
    | some i => 1 + countScan fuel c t (i + t.length)

/-- The number of matches of the non-overlapping scan over the whole of `c`.  A
match starts below `c.length` and the scan moves on by at least one index, so
`c.length + 1` rounds reach the end of the scan. -/
def nonOverlappingCount (c t : List Char) : Nat := countScan (c.length + 1) c t 0

/-- A strand state holding `ACTTGACCTTGA` in an exactly fitting buffer. -/
def strandACTTGACCTTGA : DNA_Strand := ⟨12, 12, CharPtr.array "ACTTGACCTTGA".toList⟩

/-- A strand state holding `ACTTGACC` (one occurrence of `TTG`) in a buffer of 50. -/
def strandACTTGACC : DNA_Strand := ⟨50, 8, CharPtr.array "ACTTGACC".toList⟩

/-- A strand state holding `AGTTGA` in an exactly fitting buffer. -/
def strandAGTTGA : DNA_Strand := ⟨6, 6, CharPtr.array "AGTTGA".toList⟩

/-- A strand state holding `ACTTGATTGGGTTGCTTGCC` in an exactly fitting buffer. -/
def strandPairs : DNA_Strand := ⟨20, 20, CharPtr.array "ACTTGATTGGGTTGCTTGCC".toList⟩

/-- A strand state holding eleven `A` in an exactly fitting buffer. -/
def strandElevenA : DNA_Strand := ⟨11, 11, CharPtr.array "AAAAAAAAAAA".toList⟩

/-- A strand state holding `ACTTGA` in an exactly fitting buffer. -/
def strandACTTGA : DNA_Strand := ⟨6, 6, CharPtr.array "ACTTGA".toList⟩

/-- A strand state with no character in use and a buffer of no element. -/
def strandEmpty : DNA_Strand := ⟨0, 0, CharPtr.array []⟩

/-- The state of zero-initialized storage: both sizes 0 and a null pointer. -/
def storageZeroed : DNA_Strand := ⟨0, 0, CharPtr.invalid⟩

/-- The call `set(v, index)` followed by the call `get(index)` on the same
object; an exception thrown by `set` ends the sequence. -/
def setThenGet (s : DNA_Strand) (v : Char) (index : Nat) : Except String Char :=
  (s.set v index).bind fun s1 => s1.get index

/-- One mutating call on a strand: `Step s t` holds when some call of `set`,
`grow`, `append`, `cleave`, `cleaveAll` or `splice` (any overload) on the object
in state `s` leaves it in state `t`.  A `set` that throws leaves the object as it
was; a `cleave(pos, target)` is a step when it has a result. -/
inductive Step : DNA_Strand → DNA_Strand → Prop
  | set (s t : DNA_Strand) (v : Char) (index : Nat) :
      s.set v index = Except.ok t → Step s t
  | setThrows (s : DNA_Strand) (v : Char) (index : Nat) (e : String) :
      s.set v index = Except.error e → Step s s
  | grow (s : DNA_Strand) (newSize : Nat) : Step s (s.grow newSize)
  | append (s : DNA_Strand) (rhs : String) : Step s (s.append rhs)
  | appendStrand (s rhs : DNA_Strand) : Step s (s.appendStrand rhs)
  | cleave (s : DNA_Strand) (target : String) : Step s (s.cleave target)
  | cleavePos (s t : DNA_Strand) (pos : Nat) (target : String) (r : Int) :
      s.cleavePos pos target = some (t, r) → Step s t
  | cleaveAll (s : DNA_Strand) (target : String) : Step s (s.cleaveAll target)
  | splice (s : DNA_Strand) (target ins : String) : Step s (s.splice target ins)
  | splicePos (s : DNA_Strand) (pos : Nat) (target ins : String) :
      Step s (s.splicePos pos target ins).1

/-- The strands reachable from a constructor by mutating calls.  A constructor
runs on storage in any state `uninit`; the copy constructor reads any source
strand. -/
inductive Reachable : DNA_Strand → Prop
  | mkDefault (uninit : DNA_Strand) : Reachable (DNA_Strand.mkDefault uninit)
  | mkSized (uninit : DNA_Strand) (size : Nat) : Reachable (DNA_Strand.mkSized uninit size)
  | mkString (uninit : DNA_Strand) (ipStr : String) :
      Reachable (DNA_Strand.mkString uninit ipStr)
  | mkCopy (uninit src : DNA_Strand) : Reachable (DNA_Strand.mkCopy uninit src)
  | step (s t : DNA_Strand) : Reachable s → Step s t → Reachable t

/-! ## Facts about the vocabulary -/

theorem occursAt_lt_length {c t : List Char} {i : Nat} (h : occursAt c t i) :
    i < c.length := by
  obtain ⟨hne, htake⟩ := h
  by_contra hge
  rw [List.drop_eq_nil_of_le (by omega)] at htake
  simp at htake
  exact hne htake

theorem firstFrom_eq_none_iff (c t : List Char) (pos : Nat) :
    firstFrom c t pos = none ↔ ∀ i, pos ≤ i → ¬ occursAt c t i := by
  unfold firstFrom
  rw [List.find?_eq_none]
  constructor
  · intro h i hpos hocc
    have hi : i ∈ List.range c.length := List.mem_range.mpr (occursAt_lt_length hocc)
    have := h i hi
    simp at this
    exact this hpos hocc
  · intro h i _
    simp
    exact h i

theorem firstFrom_empty_target (c : List Char) (pos : Nat) : firstFrom c [] pos = none := by
  rw [firstFrom_eq_none_iff]
  intro i _ h
  exact h.1 rfl

theorem firstFrom_past_end (c t : List Char) (pos : Nat) (h : c.length ≤ pos) :
    firstFrom c t pos = none := by
  rw [firstFrom_eq_none_iff]
  intro i hi hocc
  have := occursAt_lt_length hocc
  omega

/-! ## Facts about `cleave(pos, target)` -/

theorem cleavePos_of_unreadable (s : DNA_Strand) (pos : Nat) (target : String)
    (h : s.myDNA.get? 0 = none) : s.cleavePos pos target = none := by
  unfold DNA_Strand.cleavePos
  rw [h]

theorem cleavePos_of_readable (s : DNA_Strand) (pos : Nat) (target : String) (c : Char)
    (h : s.myDNA.get? 0 = some c) : s.cleavePos pos target = some (s, -1) := by
  unfold DNA_Strand.cleavePos
  rw [h]

theorem cleavePos_none_or_unchanged (s : DNA_Strand) (pos : Nat) (target : String) :
    s.cleavePos pos target = none ∨ s.cleavePos pos target = some (s, -1) := by
  cases hg : s.myDNA.get? 0 with
  | none => exact Or.inl (cleavePos_of_unreadable s pos target hg)
  | some c => exact Or.inr (cleavePos_of_readable s pos target c hg)

/-! ## Search -/

/-- C1: on the strand constructed from `ACTTGACCTTGA` the lowest index at which
`TTG` occurs is 2, while `search("TTG")` returns -1, whatever storage the
object was constructed in. -/
theorem search_example_returns_minus_one :
    isLowestOcc "ACTTGACCTTGA".toList "TTG".toList 2 ∧
    ∀ uninit : DNA_Strand,
      (DNA_Strand.mkString uninit "ACTTGACCTTGA").search "TTG" = -1 ∧
      (DNA_Strand.mkString uninit "ACTTGACCTTGA").search "TTG" ≠ 2 := by
  refine ⟨by decide, fun uninit => ⟨rfl, ?_⟩⟩
  show (-1 : Int) ≠ 2
  decide

/-- C2: `search(pos, target)` returns -1 whenever `pos` is at or past the length
(the `mySize` member, or the value `size()` reports), or `target` is empty, or
`target` has no occurrence starting at an index `i >= pos`; and `search(target)`
returns -1 whenever `target` is empty or does not occur in the content. -/
theorem search_not_found_returns_minus_one (s : DNA_Strand) (pos : Nat) (target : String) :
    ((s.mySize ≤ pos ∨ s.size ≤ pos ∨ target = "" ∨
        ∀ i, pos ≤ i → ¬ occursAt s.content target.toList i) →
      s.searchPos pos target = -1) ∧
    ((target = "" ∨ ∀ i, ¬ occursAt s.content target.toList i) →
      s.search target = -1) :=
  ⟨fun _ => rfl, fun _ => rfl⟩

/-- Witness for C2: in `ACTTGACCTTGA` the target `TTG` has no occurrence starting
at index 9 or later, and the target `CA` does not occur at all. -/
theorem search_not_found_returns_minus_one_witness :
    (∀ i, 9 ≤ i → ¬ occursAt strandACTTGACCTTGA.content "TTG".toList i) ∧
    strandACTTGACCTTGA.searchPos 9 "TTG" = -1 ∧
    (∀ i, ¬ occursAt strandACTTGACCTTGA.content "CA".toList i) ∧
    strandACTTGACCTTGA.search "CA" = -1 :=
  have h1 : ∀ i, 9 ≤ i → ¬ occursAt strandACTTGACCTTGA.content "TTG".toList i :=
    (firstFrom_eq_none_iff _ _ 9).mp (by decide)
  have h2 : ∀ i, ¬ occursAt strandACTTGACCTTGA.content "CA".toList i :=
    fun i => (firstFrom_eq_none_iff _ _ 0).mp (by decide) i (Nat.zero_le i)
  ⟨h1,
   (search_not_found_returns_minus_one strandACTTGACCTTGA 9 "TTG").1
     (Or.inr (Or.inr (Or.inr h1))),
   h2,
   (search_not_found_returns_minus_one strandACTTGACCTTGA 9 "CA").2 (Or.inr h2)⟩

/-! ## Region deletion -/

/-- C3: in `ACTTGACCTTGA` the first occurrence of `TTG` ends at 5 and the next
one ends at 11, yet `cleave("TTG")` on the strand constructed from that string
leaves `toString()` at `junk` (not `ACTTGA`) and `size()` where it was (not 6
lower); on a state whose data members hold `ACTTGACCTTGA` the call changes no
data member, so the content is still `ACTTGACCTTGA`. -/
theorem cleave_example_removes_nothing :
    markerEnds 0 "ACTTGACCTTGA".toList "TTG".toList 0 = some (5, 11) ∧
    markerEnds 1 "ACTTGACCTTGA".toList "TTG".toList 0 = some (5, 11) ∧
    (∀ uninit : DNA_Strand,
      ((DNA_Strand.mkString uninit "ACTTGACCTTGA").cleave "TTG").toString = "junk" ∧
      ((DNA_Strand.mkString uninit "ACTTGACCTTGA").cleave "TTG").toString ≠ "ACTTGA" ∧
      ((DNA_Strand.mkString uninit "ACTTGACCTTGA").cleave "TTG").size =
        (DNA_Strand.mkString uninit "ACTTGACCTTGA").size) ∧
    (strandACTTGACCTTGA.cleave "TTG").content = "ACTTGACCTTGA".toList ∧
    (strandACTTGACCTTGA.cleave "TTG").content ≠ "ACTTGA".toList := by
  refine ⟨by decide, by decide, fun uninit => ⟨rfl, ?_, rfl⟩, by decide, by decide⟩
  show "junk" ≠ "ACTTGA"
  decide

/-- C4: `cleaveAll("TTG")` on the strand constructed from
`ACTTGATTGGGTTGCTTGCC` leaves `toString()` at `junk`, not `ACTTGGGTTGCC`; on a
state whose data members hold that string the call changes no data member, so
no region between a pair of occurrences is removed. -/
theorem cleaveAll_example_removes_nothing :
    (∀ uninit : DNA_Strand,
      ((DNA_Strand.mkString uninit "ACTTGATTGGGTTGCTTGCC").cleaveAll "TTG").toString = "junk" ∧
      ((DNA_Strand.mkString uninit "ACTTGATTGGGTTGCTTGCC").cleaveAll "TTG").toString ≠
        "ACTTGGGTTGCC") ∧
    (strandPairs.cleaveAll "TTG").content = "ACTTGATTGGGTTGCTTGCC".toList ∧
    (strandPairs.cleaveAll "TTG").content ≠ "ACTTGGGTTGCC".toList := by
  refine ⟨fun uninit => ⟨rfl, ?_⟩, by decide, by decide⟩
  show "junk" ≠ "ACTTGGGTTGCC"
  decide

/-- C8: in `ACTTGACCTTGA`, searching from index 1, the first occurrence of `TTG`
ends at 5 and the next one at 11, so the claim expects the result 5 and the
content `ACTTGA`.  On the strand constructed from that string `cleave(1, "TTG")`
never returns 5: it has no result at all where the never-assigned `myDNA` does
not point to a readable array (so in zero-initialized storage and for every
storage whose pointer is not valid), and where it does, the call returns -1 and
changes no data member, `toString()` staying `junk`. -/
theorem cleavePos_example_never_returns_five :
    markerEnds 0 "ACTTGACCTTGA".toList "TTG".toList 1 = some (5, 11) ∧
    markerEnds 1 "ACTTGACCTTGA".toList "TTG".toList 1 = some (5, 11) ∧
    (∀ uninit : DNA_Strand,
      ((DNA_Strand.mkString uninit "ACTTGACCTTGA").cleavePos 1 "TTG" = none ∨
       (DNA_Strand.mkString uninit "ACTTGACCTTGA").cleavePos 1 "TTG" =
         some (DNA_Strand.mkString uninit "ACTTGACCTTGA", -1)) ∧
      (∀ t : DNA_Strand,
        (DNA_Strand.mkString uninit "ACTTGACCTTGA").cleavePos 1 "TTG" ≠ some (t, 5)) ∧
      (DNA_Strand.mkString uninit "ACTTGACCTTGA").toString ≠ "ACTTGA") ∧
    (∀ maxDNA mySize : Nat,
      (DNA_Strand.mkString ⟨maxDNA, mySize, CharPtr.invalid⟩ "ACTTGACCTTGA").cleavePos 1 "TTG" =
        none) ∧
    (DNA_Strand.mkString storageZeroed "ACTTGACCTTGA").cleavePos 1 "TTG" = none ∧
    strandACTTGACCTTGA.cleavePos 1 "TTG" = some (strandACTTGACCTTGA, -1) ∧
    strandACTTGACCTTGA.content = "ACTTGACCTTGA".toList := by
  refine ⟨by decide, by decide, fun uninit => ⟨?_, fun t h => ?_, ?_⟩, fun _ _ => rfl, rfl,
    rfl, by decide⟩
  · exact cleavePos_none_or_unchanged uninit 1 "TTG"
  · rcases cleavePos_none_or_unchanged uninit 1 "TTG" with h0 | h1
    · exact Option.noConfusion (h0.symm.trans h)
    · have h2 : ((-1 : Int)) = 5 := congrArg Prod.snd (Option.some.inj (h1.symm.trans h))
      exact absurd h2 (by decide)
  · show "junk" ≠ "ACTTGA"
    decide

/-- C9: `cleave(pos, target)` with the pair of occurrences missing does not
return -1 on a constructed strand whose never-assigned `myDNA` does not point to
a readable array: the call dereferences the pointer and has no result.  This is
so for the strand constructed from `ACTTGACC` (one occurrence of `TTG`: no pair
in the string, none in the content the members give) with targets `TTG` and
the empty target, at `pos` 0 and at a `pos` past the length, and for the
default-constructed strand in zero-initialized storage.  The call returns -1
and changes nothing exactly when `myDNA[0]` can be read; `cleave(target)`
changes nothing on every strand. -/
theorem cleavePos_missing_pair_has_no_result :
    markerEnds 0 "ACTTGACC".toList "TTG".toList 0 = none ∧
    markerEnds 1 "ACTTGACC".toList "TTG".toList 0 = none ∧
    (∀ maxDNA mySize gap pos : Nat,
      markerEnds gap (DNA_Strand.mkString ⟨maxDNA, mySize, CharPtr.invalid⟩ "ACTTGACC").content
        "TTG".toList pos = none ∧
      (DNA_Strand.mkString ⟨maxDNA, mySize, CharPtr.invalid⟩ "ACTTGACC").cleavePos pos "TTG" =
        none ∧
      (DNA_Strand.mkString ⟨maxDNA, mySize, CharPtr.invalid⟩ "ACTTGACC").cleavePos pos "" =
        none ∧
      (DNA_Strand.mkString ⟨maxDNA, mySize, CharPtr.invalid⟩ "ACTTGACC").cleavePos pos "TTG" ≠
        some (DNA_Strand.mkString ⟨maxDNA, mySize, CharPtr.invalid⟩ "ACTTGACC", -1)) ∧
    (DNA_Strand.mkDefault storageZeroed).cleavePos 0 "TTG" = none ∧
    strandEmpty.cleavePos 0 "TTG" = none ∧
    (∀ (s : DNA_Strand) (pos : Nat) (target : String),
      (s.cleavePos pos target = some (s, -1) ↔ ∃ c : Char, s.myDNA.get? 0 = some c) ∧
      (s.cleavePos pos target = none ↔ s.myDNA.get? 0 = none)) ∧
    (∀ (s : DNA_Strand) (target : String), s.cleave target = s) ∧
    markerEnds 0 strandACTTGACC.content "TTG".toList 1 = none ∧
    strandACTTGACC.cleavePos 1 "TTG" = some (strandACTTGACC, -1) := by
  refine ⟨by decide, by decide, fun maxDNA mySize gap pos => ⟨?_, rfl, rfl, ?_⟩, rfl, rfl,
    fun s pos target => ⟨?_, ?_⟩, fun s target => rfl, by decide, rfl⟩
  · show markerEnds gap ((CharPtr.cells CharPtr.invalid).take mySize) "TTG".toList pos = none
    simp [CharPtr.cells, markerEnds, firstFrom]
  · intro h
    exact Option.noConfusion h
  · constructor
    · intro h
      cases hg : s.myDNA.get? 0 with
      | none => rw [cleavePos_of_unreadable s pos target hg] at h; exact Option.noConfusion h
      | some c => exact ⟨c, rfl⟩
    · rintro ⟨c, hc⟩
      exact cleavePos_of_readable s pos target c hc
  · constructor
    · intro h
      cases hg : s.myDNA.get? 0 with
      | none => rfl
      | some c => rw [cleavePos_of_readable s pos target c hg] at h; exact Option.noConfusion h
    · exact cleavePos_of_unreadable s pos target

/-! ## Splice -/

/-- C5: in `AGTTGA` the first occurrence of `G` ends at 2 and the next one at 5,
yet `splice("G", "CCCCC")` on the strand constructed from that string leaves
`toString()` at `junk`, not `AGCCCCCA`; on a state whose data members hold
`AGTTGA` the call changes no data member. -/
theorem splice_example_replaces_nothing :
    markerEnds 0 "AGTTGA".toList "G".toList 0 = some (2, 5) ∧
    markerEnds 1 "AGTTGA".toList "G".toList 0 = some (2, 5) ∧
    (∀ uninit : DNA_Strand,
      ((DNA_Strand.mkString uninit "AGTTGA").splice "G" "CCCCC").toString = "junk" ∧
      ((DNA_Strand.mkString uninit "AGTTGA").splice "G" "CCCCC").toString ≠ "AGCCCCCA") ∧
    (strandAGTTGA.splice "G" "CCCCC").content = "AGTTGA".toList ∧
    (strandAGTTGA.splice "G" "CCCCC").content ≠ "AGCCCCCA".toList := by
  refine ⟨by decide, by decide, fun uninit => ⟨rfl, ?_⟩, by decide, by decide⟩
  show "junk" ≠ "AGCCCCCA"
  decide

/-- C6: in `AGTTGA`, searching from index 1, the first occurrence of `G` ends at
`e1 = 2`, so the index following the inserted `CCCCC` is 7, yet
`splice(1, "G", "CCCCC")` on the strand constructed from that string returns its
argument `pos`, 1. -/
theorem splicePos_example_returns_pos :
    markerEnds 0 "AGTTGA".toList "G".toList 1 = some (2, 5) ∧
    markerEnds 1 "AGTTGA".toList "G".toList 1 = some (2, 5) ∧
    2 + "CCCCC".length = 7 ∧
    ∀ uninit : DNA_Strand,
      ((DNA_Strand.mkString uninit "AGTTGA").splicePos 1 "G" "CCCCC").2 = 1 ∧
      ((DNA_Strand.mkString uninit "AGTTGA").splicePos 1 "G" "CCCCC").2 ≠ 7 := by
  refine ⟨by decide, by decide, by decide, fun uninit => ⟨?_, ?_⟩⟩
  · show sizeToInt 1 = 1
    decide
  · show sizeToInt 1 ≠ 7
    decide

/-- C7: `splice(0, "", "CCCCC")` has an empty target, so no pair of occurrences is
found and no splice is performed; the call leaves the strand unchanged but
returns its argument `pos`, 0, not -1.  The same holds for the target `X` on a
state whose data members hold `AGTTGA`, where `X` does not occur. -/
theorem splicePos_no_splice_returns_pos :
    (∀ (s : DNA_Strand) (gap : Nat), markerEnds gap s.content "".toList 0 = none) ∧
    (∀ s : DNA_Strand,
      (s.splicePos 0 "" "CCCCC").1 = s ∧
      (s.splicePos 0 "" "CCCCC").2 = 0 ∧
      (s.splicePos 0 "" "CCCCC").2 ≠ -1) ∧
    firstFrom strandAGTTGA.content "X".toList 0 = none ∧
    (strandAGTTGA.splicePos 0 "X" "CCCCC").1 = strandAGTTGA ∧
    (strandAGTTGA.splicePos 0 "X" "CCCCC").2 = 0 := by
  refine ⟨fun s gap => ?_, fun s => ⟨rfl, ?_, ?_⟩, by decide, rfl, by decide⟩
  · show (firstFrom s.content [] 0).bind _ = none
    rw [firstFrom_empty_target]
    rfl
  · show sizeToInt 0 = 0
    decide
  · show sizeToInt 0 ≠ -1
    decide

/-! ## Counting -/

/-- C10: the non-overlapping scan finds 3 matches of `AAA` in eleven `A` and none
of the empty target, yet `countEnzyme("AAA")` on the strand constructed from
eleven `A` returns 999999, not 3, and `countEnzyme("")` returns 999999, not 0;
the same values are returned on a state whose data members hold the eleven `A`. -/
theorem countEnzyme_example_returns_999999 :
    nonOverlappingCount "AAAAAAAAAAA".toList "AAA".toList = 3 ∧
    nonOverlappingCount "AAAAAAAAAAA".toList "".toList = 0 ∧
    (∀ uninit : DNA_Strand,
      (DNA_Strand.mkString uninit "AAAAAAAAAAA").countEnzyme "AAA" = 999999 ∧
      (DNA_Strand.mkString uninit "AAAAAAAAAAA").countEnzyme "AAA" ≠ 3 ∧
      (DNA_Strand.mkString uninit "AAAAAAAAAAA").countEnzyme "" = 999999 ∧
      (DNA_Strand.mkString uninit "AAAAAAAAAAA").countEnzyme "" ≠ 0) ∧
    strandElevenA.countEnzyme "AAA" = 999999 ∧
    strandElevenA.countEnzyme "" = 999999 := by
  refine ⟨by decide, by decide, fun uninit => ⟨rfl, ?_, rfl, ?_⟩, rfl, rfl⟩
  · show (999999 : Nat) ≠ 3
    decide
  · show (999999 : Nat) ≠ 0
    decide

/-- C11: in `ACTTGA` the character `A` stands at 2 indices and in the empty
content at none, yet `countEnzyme('A')` returns 999999 on the strand constructed
from `ACTTGA`, on the default-constructed strand, and on states whose data
members hold `ACTTGA` and nothing. -/
theorem countEnzymeChar_example_returns_999999 :
    "ACTTGA".toList.count 'A' = 2 ∧
    strandACTTGA.content.count 'A' = 2 ∧
    strandEmpty.content.count 'A' = 0 ∧
    (∀ uninit : DNA_Strand,
      (DNA_Strand.mkString uninit "ACTTGA").countEnzymeChar 'A' = 999999 ∧
      (DNA_Strand.mkString uninit "ACTTGA").countEnzymeChar 'A' ≠ 2 ∧
      (DNA_Strand.mkDefault uninit).countEnzymeChar 'A' = 999999 ∧
      (DNA_Strand.mkDefault uninit).countEnzymeChar 'A' ≠ 0) ∧
    strandACTTGA.countEnzymeChar 'A' = 999999 ∧
    strandEmpty.countEnzymeChar 'A' = 999999 := by
  refine ⟨by decide, by decide, by decide, fun uninit => ⟨rfl, ?_, rfl, ?_⟩, rfl, rfl⟩
  · show (999999 : Nat) ≠ 2
    decide
  · show (999999 : Nat) ≠ 0
    decide

/-! ## Indexed access -/

/-- C12: `get(index)` and `set(v, index)` return normally for every strand and
every index, so never with an out-of-range error: `get` yields the character `!`
and `set` leaves the strand as it was.  In particular this is so at index 6 and
at index 1000000 on the strand constructed from `ACTTGA`, and at index 0 on the
default-constructed strand. -/
theorem get_set_never_throw :
    (∀ (s : DNA_Strand) (v : Char) (index : Nat),
      s.get index = Except.ok '!' ∧ s.set v index = Except.ok s ∧
      (∀ e : String, s.get index ≠ Except.error e) ∧
      (∀ e : String, s.set v index ≠ Except.error e)) ∧
    (∀ uninit : DNA_Strand,
      (DNA_Strand.mkString uninit "ACTTGA").get 6 = Except.ok '!' ∧
      (DNA_Strand.mkString uninit "ACTTGA").get 1000000 = Except.ok '!' ∧
      (DNA_Strand.mkString uninit "ACTTGA").set 'A' 6 =
        Except.ok (DNA_Strand.mkString uninit "ACTTGA") ∧
      (DNA_Strand.mkString uninit "ACTTGA").set 'A' 1000000 =
        Except.ok (DNA_Strand.mkString uninit "ACTTGA") ∧
      (DNA_Strand.mkDefault uninit).get 0 = Except.ok '!' ∧
      (DNA_Strand.mkDefault uninit).set 'A' 0 = Except.ok (DNA_Strand.mkDefault uninit)) ∧
    strandACTTGA.mySize ≤ 6 ∧ strandACTTGA.get 6 = Except.ok '!' ∧
    strandEmpty.mySize ≤ 0 ∧ strandEmpty.get 0 = Except.ok '!' := by
  refine ⟨fun s v index => ⟨rfl, rfl, fun e h => ?_, fun e h => ?_⟩,
    fun uninit => ⟨rfl, rfl, rfl, rfl, rfl, rfl⟩, by decide, rfl, by decide, rfl⟩
  · exact Except.noConfusion (show Except.ok '!' = Except.error e from h)
  · exact Except.noConfusion (show Except.ok s = Except.error e from h)

/-- C13: `set('G', 0)` followed by `get(0)` on the strand constructed from
`ACTTGA` returns `!`, not `G`; on a state whose data members hold `ACTTGA`
(index 0 is below the length 6) the `set` changes no data member and the `get`
returns `!`. -/
theorem set_then_get_returns_bang :
    (∀ uninit : DNA_Strand,
      setThenGet (DNA_Strand.mkString uninit "ACTTGA") 'G' 0 = Except.ok '!' ∧
      setThenGet (DNA_Strand.mkString uninit "ACTTGA") 'G' 0 ≠ Except.ok 'G') ∧
    0 < strandACTTGA.mySize ∧
    strandACTTGA.set 'G' 0 = Except.ok strandACTTGA ∧
    setThenGet strandACTTGA 'G' 0 = Except.ok '!' := by
  refine ⟨fun uninit => ⟨rfl, fun h => ?_⟩, by decide, rfl, rfl⟩
  exact absurd (Except.ok.inj (show Except.ok '!' = Except.ok 'G' from h)) (by decide)

/-! ## Construction -/

/-- C14: for no string `s` does the strand constructed from `s` have both
`toString() = s` and `size() = |s|`: `toString()` is `junk` and `size()` and
`maxSize()` are 999999 whatever the string.  For `ACTTGA` the results are
`junk` and 999999, not `ACTTGA` and 6. -/
theorem mkString_toString_is_junk :
    (∀ (uninit : DNA_Strand) (ipStr : String),
      (DNA_Strand.mkString uninit ipStr).toString = "junk" ∧
      (DNA_Strand.mkString uninit ipStr).size = 999999 ∧
      (DNA_Strand.mkString uninit ipStr).maxSize = 999999 ∧
      ¬ ((DNA_Strand.mkString uninit ipStr).toString = ipStr ∧
         (DNA_Strand.mkString uninit ipStr).size = ipStr.length)) ∧
    (∀ uninit : DNA_Strand,
      (DNA_Strand.mkString uninit "ACTTGA").toString ≠ "ACTTGA" ∧
      (DNA_Strand.mkString uninit "ACTTGA").size ≠ "ACTTGA".length ∧
      (DNA_Strand.mkString uninit "ACTTGA").maxSize ≠ "ACTTGA".length) := by
  refine ⟨fun uninit ipStr => ⟨rfl, rfl, rfl, ?_⟩, fun uninit => ⟨?_, ?_, ?_⟩⟩
  · rintro ⟨h1, h2⟩
    have h1 : "junk" = ipStr := h1
    subst h1
    exact absurd (show (999999 : Nat) = "junk".length from h2) (by decide)
  · show "junk" ≠ "ACTTGA"
    decide
  · show (999999 : Nat) ≠ "ACTTGA".length
    decide
  · show (999999 : Nat) ≠ "ACTTGA".length
    decide

/-- C15: a default-constructed strand reports `size() = 999999` and
`maxSize() = 999999`, not 0 and `DEFAULT_DNA_SIZE = 50`; a strand constructed
with size `n` reports `size() = 999999`, not 0, for every `n`, and with `n = 0`
or `n = 20` it reports `maxSize() = 999999`, not `n`. -/
theorem constructors_report_999999 :
    DEFAULT_DNA_SIZE = 50 ∧
    (∀ uninit : DNA_Strand,
      (DNA_Strand.mkDefault uninit).size = 999999 ∧
      (DNA_Strand.mkDefault uninit).size ≠ 0 ∧
      (DNA_Strand.mkDefault uninit).maxSize = 999999 ∧
      (DNA_Strand.mkDefault uninit).maxSize ≠ DEFAULT_DNA_SIZE) ∧
    (∀ (uninit : DNA_Strand) (n : Nat),
      (DNA_Strand.mkSized uninit n).size = 999999 ∧
      (DNA_Strand.mkSized uninit n).size ≠ 0 ∧
      (DNA_Strand.mkSized uninit n).maxSize = 999999) ∧
    (∀ uninit : DNA_Strand,
      (DNA_Strand.mkSized uninit 0).maxSize ≠ 0 ∧
      (DNA_Strand.mkSized uninit 20).maxSize ≠ 20) := by
  refine ⟨rfl, fun uninit => ⟨rfl, ?_, rfl, ?_⟩, fun uninit n => ⟨rfl, ?_, rfl⟩,
    fun uninit => ⟨?_, ?_⟩⟩
  · show (999999 : Nat) ≠ 0
    decide
  · show (999999 : Nat) ≠ 50
    decide
  · show (999999 : Nat) ≠ 0
    decide
  · show (999999 : Nat) ≠ 0
    decide
  · show (999999 : Nat) ≠ 20
    decide

/-! ## Equality -/

/-- C16: `isEqual` returns false for every pair of strands, so also between two
strands constructed from the same string `ACTTGA`, between a strand and itself,
and between a strand and a copy of it. -/
theorem isEqual_always_false :
    (∀ a b : DNA_Strand, a.isEqual b = false) ∧
    (∀ u1 u2 : DNA_Strand,
      (DNA_Strand.mkString u1 "ACTTGA").isEqual (DNA_Strand.mkString u2 "ACTTGA") = false ∧
      (DNA_Strand.mkString u1 "ACTTGA").isEqual (DNA_Strand.mkString u2 "ACTTGA") ≠ true) ∧
    (∀ s : DNA_Strand, s.isEqual s ≠ true) ∧
    (∀ uninit s : DNA_Strand,
      s.isEqual (DNA_Strand.mkCopy uninit s) ≠ true ∧
      (DNA_Strand.mkCopy uninit s).isEqual s ≠ true) ∧
    strandACTTGA.isEqual strandACTTGA = false := by
  refine ⟨fun a b => rfl, fun u1 u2 => ⟨rfl, ?_⟩, fun s => ?_, fun uninit s => ⟨?_, ?_⟩, rfl⟩
  all_goals
    show false ≠ true
    decide

/-! ## Growth and append -/

/-- C17: `append("ACCTG")` on the strand constructed from `ACTTGA` leaves
`toString()` at `junk`, not `ACTTGAACCTG`, and `size()` at 999999, not 11; on a
state whose data members hold `ACTTGA` both `append` overloads change no data
member, so the content is still `ACTTGA`. -/
theorem append_example_appends_nothing :
    "ACTTGA" ++ "ACCTG" = "ACTTGAACCTG" ∧
    (∀ uninit : DNA_Strand,
      ((DNA_Strand.mkString uninit "ACTTGA").append "ACCTG").toString = "junk" ∧
      ((DNA_Strand.mkString uninit "ACTTGA").append "ACCTG").toString ≠ "ACTTGAACCTG" ∧
      ((DNA_Strand.mkString uninit "ACTTGA").append "ACCTG").size = 999999 ∧
      ((DNA_Strand.mkString uninit "ACTTGA").append "ACCTG").size ≠
        "ACTTGA".length + "ACCTG".length) ∧
    (∀ uninit u2 : DNA_Strand,
      ((DNA_Strand.mkString uninit "ACTTGA").appendStrand
        (DNA_Strand.mkString u2 "ACCTG")).toString ≠ "ACTTGAACCTG") ∧
    strandACTTGA.append "ACCTG" = strandACTTGA ∧
    (strandACTTGA.append "ACCTG").content = "ACTTGA".toList ∧
    (strandACTTGA.append "ACCTG").content ≠ "ACTTGAACCTG".toList ∧
    (strandACTTGA.append "ACCTG").mySize = 6 ∧
    (strandACTTGA.appendStrand strandACTTGACC).content = "ACTTGA".toList := by
  refine ⟨by decide, fun uninit => ⟨rfl, ?_, rfl, ?_⟩, fun uninit u2 => ?_, rfl, by decide,
    by decide, rfl, by decide⟩
  · show "junk" ≠ "ACTTGAACCTG"
    decide
  · show (999999 : Nat) ≠ "ACTTGA".length + "ACCTG".length
    decide
  · show "junk" ≠ "ACTTGAACCTG"
    decide

/-- C18: `grow(1000000)` on the strand constructed from `ACTTGA` is a call with
`newSize > maxSize()` (1000000 against 999999), yet afterwards `maxSize()` is
still 999999, not 1000000; `size()` and `toString()` are unchanged.  On a state
whose data members hold `ACTTGA` in a buffer of 6, `grow(20)` leaves the
`maxDNA` member at 6. -/
theorem grow_example_keeps_maxSize :
    (∀ uninit : DNA_Strand,
      (DNA_Strand.mkString uninit "ACTTGA").maxSize < 1000000 ∧
      ((DNA_Strand.mkString uninit "ACTTGA").grow 1000000).maxSize = 999999 ∧
      ((DNA_Strand.mkString uninit "ACTTGA").grow 1000000).maxSize ≠ 1000000 ∧
      ((DNA_Strand.mkString uninit "ACTTGA").grow 1000000).size =
        (DNA_Strand.mkString uninit "ACTTGA").size ∧
      ((DNA_Strand.mkString uninit "ACTTGA").grow 1000000).toString =
        (DNA_Strand.mkString uninit "ACTTGA").toString) ∧
    (∀ (s : DNA_Strand) (newSize : Nat), s.grow newSize = s) ∧
    strandACTTGA.maxDNA < 20 ∧
    (strandACTTGA.grow 20).maxDNA = 6 := by
  refine ⟨fun uninit => ⟨?_, rfl, ?_, rfl, rfl⟩, fun s newSize => rfl, by decide, rfl⟩
  · show (999999 : Nat) < 1000000
    decide
  · show (999999 : Nat) ≠ 1000000
    decide

/-! ## Invariant and frame -/

/-- C19: every strand reachable from a constructor by calls of `set`, `grow`,
`append`, `cleave`, `cleaveAll` and `splice` has `size() <= maxSize()`, and a
further such call does not decrease `maxSize()` and keeps `size() <= maxSize()`. -/
theorem size_le_maxSize_invariant (s : DNA_Strand) (h : Reachable s) :
    s.size ≤ s.maxSize ∧
    ∀ t : DNA_Strand, Step s t → s.maxSize ≤ t.maxSize ∧ t.size ≤ t.maxSize :=
  ⟨Nat.le_refl 999999, fun _ _ => ⟨Nat.le_refl 999999, Nat.le_refl 999999⟩⟩

/-- Witness for C19: the strand constructed from `ACTTGA`, grown to 20 and
appended with `ACCTG`, is reachable; a following `cleave("TTG")` is a step. -/
theorem size_le_maxSize_invariant_witness :
    Reachable (((DNA_Strand.mkString strandEmpty "ACTTGA").grow 20).append "ACCTG") ∧
    (((DNA_Strand.mkString strandEmpty "ACTTGA").grow 20).append "ACCTG").size ≤
      (((DNA_Strand.mkString strandEmpty "ACTTGA").grow 20).append "ACCTG").maxSize ∧
    (((DNA_Strand.mkString strandEmpty "ACTTGA").grow 20).append "ACCTG").maxSize ≤
      ((((DNA_Strand.mkString strandEmpty "ACTTGA").grow 20).append "ACCTG").cleave
        "TTG").maxSize :=
  have hr : Reachable (((DNA_Strand.mkString strandEmpty "ACTTGA").grow 20).append "ACCTG") :=
    Reachable.step _ _
      (Reachable.step _ _ (Reachable.mkString strandEmpty "ACTTGA") (Step.grow _ 20))
      (Step.append _ "ACCTG")
  have r := size_le_maxSize_invariant _ hr
  ⟨hr, r.1, (r.2 _ (Step.cleave _ "TTG")).1⟩

/-- C20: for every strand, character `v` and index, `set(v, index)` returns
normally, and the strand after the call has the same `size()` and `maxSize()`,
the same `mySize` and `maxDNA` members, and at every position other than
`index` the same buffer character and the same `get` result. -/
theorem set_frame (s : DNA_Strand) (v : Char) (index : Nat) :
    (∃ t : DNA_Strand, s.set v index = Except.ok t) ∧
    ∀ t : DNA_Strand, s.set v index = Except.ok t →
      t.size = s.size ∧ t.maxSize = s.maxSize ∧
      t.mySize = s.mySize ∧ t.maxDNA = s.maxDNA ∧
      ∀ j : Nat, j ≠ index → t.myDNA.get? j = s.myDNA.get? j ∧ t.get j = s.get j := by
  refine ⟨⟨s, rfl⟩, fun t h => ?_⟩
  have ht : s = t := Except.ok.inj (show Except.ok s = Except.ok t from h)
  subst ht
  exact ⟨rfl, rfl, rfl, rfl, fun j _ => ⟨rfl, rfl⟩⟩

/-- Witness for C20: `set('C', 2)` on a state holding `ACTTGA` returns that state,
and position 3 (other than 2) still holds `T`. -/
theorem set_frame_witness :
    strandACTTGA.set 'C' 2 = Except.ok strandACTTGA ∧ (3 : Nat) ≠ 2 ∧
    strandACTTGA.size = strandACTTGA.size ∧
    strandACTTGA.myDNA.get? 3 = strandACTTGA.myDNA.get? 3 ∧
    strandACTTGA.myDNA.get? 3 = some 'T' :=
  have r := (set_frame strandACTTGA 'C' 2).2 strandACTTGA rfl
  ⟨rfl, by decide, r.1, (r.2.2.2.2 3 (by decide)).1, by decide⟩
